import Mathlib

/-!
Shallow embedding of `demo.py`: an interactive workflow that drives the
Cortex EEG API through authorization, subject and record management,
headset discovery and stream subscription.

The external collaborators (the Cortex transport and the console) are
modelled by an environment `Env` fixing the server's response to each API
call and the operator's inputs.  Python exceptions become `Except PyError`;
an instance attribute that a method may leave unset becomes an `Option`
field of `DemoState` (`none` = attribute absent, which on access raises
`AttributeError`).  Every API call issued, every notification wait and the
semantically relevant console prints are recorded in an event trace.
-/

/-- Python runtime faults the script can raise. -/
inductive PyError where
  | attrError (attr : String)
  | keyError (key : String)
  | indexError
  | typeError
  | inputExhausted
  deriving DecidableEq, Repr

/-- One element of the `get_user_login` response list. -/
structure LoginInfo where
  username : String
  lastLoginTime : String
  deriving DecidableEq, Repr

/-- The `get_user_information` response. -/
structure UserInfo where
  username : String
  firstName : String
  lastName : String
  licenseAccepted : Bool
  deriving DecidableEq, Repr

/-- A subject entry as returned by `query_subjects` / `create_subject`. -/
structure Subject where
  subjectName : String
  deriving DecidableEq, Repr

/-- A record entry as returned by `query_records` / `get_record_infos`. -/
structure RecordEntry where
  title : String
  uuid : String
  deriving DecidableEq, Repr

/-- A discovered headset from `query_headsets`. -/
structure Headset where
  id : String
  deriving DecidableEq, Repr

/-- Response shape of `query_subjects` / `query_records`: either the
error shape (fields `code` and `message`) or the results shape
(fields `count` and the items list). -/
inductive QueryResp (α : Type) where
  | err (code : Int) (message : String)
  | ok (count : Nat) (items : List α)
  deriving DecidableEq, Repr

/-- Response shape of `create_session`: error shape or a session id. -/
inductive SessionResp where
  | err (code : Int) (message : String)
  | ok (id : String)
  deriving DecidableEq, Repr

/-- The console inputs collected by `create_subject`
(empty string = the operator pressed enter to leave the field blank). -/
structure SubjectFields where
  name : String
  dateOfBirth : String
  sex : String
  countryCode : String
  state : String
  city : String
  deriving DecidableEq, Repr

/-- An API call issued through `cortex.await_response`, with the
arguments the demo passes to it. -/
inductive ApiCall where
  | get_user_login
  | request_access (client_id : String) (client_secret : String)
  | authorize (client_id : String) (client_secret : String)
  | generate_new_token (cortex_token : String) (client_id : String) (client_secret : String)
  | get_user_information (cortex_token : Option String)
  | query_subjects (cortex_token : Option String)
  | create_subject (cortex_token : Option String) (subject_name : Option String)
      (dateOfBirth : Option String) (sex : Option String) (countryCode : Option String)
      (st : Option String) (city : Option String)
  | query_records (cortex_token : Option String) (keyword : String)
  | get_record_infos (cortex_token : Option String) (record_ids : List String)
  | control_device (command : String) (headset_id : Option String)
  | query_headsets
  | create_session (cortex_token : Option String) (headset_id : String) (status : String)
  | subscribe (cortex_token : Option String) (session_id : String) (streams : List String)
  deriving DecidableEq, Repr

/-- A traced effect: an API call, an `await_warning` wait (with the
warning received), an error-shape report (the `code`/`message` prints),
or the stream-selection loop's added/duplicate messages. -/
inductive Event where
  | call (c : ApiCall)
  | warnWait (code : Int)
  | printErr (code : Int) (message : String)
  | printAdded
  | printDup
  deriving DecidableEq, Repr

/-- The environment: server responses and operator inputs, one field per
suspension point of the script. -/
structure Env where
  entered_username : String
  login : List LoginInfo
  accessGranted : Bool
  authorizeToken : String
  newToken : String
  userInfo : UserInfo
  subjectsResp : QueryResp Subject
  subjectChoice : Int
  subjectFields : SubjectFields
  createdSubject : Subject
  recordsResp : QueryResp RecordEntry
  recordChoice : Int
  recordInfos : List RecordEntry
  headsets : List Headset
  warning1 : Int
  warning2 : Int
  sessionResp : SessionResp
  streamPicks : List Int
  subscribeSuccess : List String
  subscribeFailure : List String
  recordTitle : String
  recordSubjectName : String
  recordDescription : String
  deriving DecidableEq, Repr

/-- The mutable attributes of the `Demo` instance.  `none` in an `Option`
field means the attribute has never been assigned (so reading it raises
`AttributeError`); fields the script assigns Python `None` to are nested
`Option`s. -/
structure DemoState where
  client_id : String
  client_secret : String
  token : Option String
  current_username : Option String
  user_info : Option UserInfo
  all_subjects : Option (QueryResp Subject)
  subject_index : Option Int
  current_subject : Option (Option Subject)
  subject_name : Option String
  all_records : Option (QueryResp RecordEntry)
  record_index : Option Int
  current_record : Option (Option RecordEntry)
  headset : Option Headset
  headset_id : Option String
  session_id : Option String
  streams : Option (List String)
  deriving DecidableEq, Repr

/-- The state after `Demo.__init__('', '', False)`: `token` is Python
`None` (the attribute exists), every other workflow attribute is unset. -/
def demoInit : DemoState :=
  { client_id := "", client_secret := "", token := none, current_username := none,
    user_info := none, all_subjects := none, subject_index := none,
    current_subject := none, subject_name := none, all_records := none,
    record_index := none, current_record := none, headset := none,
    headset_id := none, session_id := none, streams := none }

/-- Python list indexing: negative indices wrap once, anything out of
range raises `IndexError`. -/
def pyIndex {α : Type} (xs : List α) (i : Int) : Except PyError α :=
  let j : Int := if i < 0 then i + xs.length else i
  if h : 0 ≤ j ∧ j.toNat < xs.length then .ok (xs.get ⟨j.toNat, h.2⟩)
  else .error .indexError

/-- `if field:` guarding an optional create-subject parameter — only a
non-empty string is sent. -/
def optField (v : String) : Option String :=
  if v = "" then none else some v

/-- A step's outcome: the events it emitted, and either the updated
state or the Python exception that escaped it. -/
abbrev StepResult := List Event × Except PyError DemoState

/-- Sequential composition of steps: an exception short-circuits, traces
concatenate. -/
def seqStep (r : StepResult) (f : DemoState → StepResult) : StepResult :=
  match r.2 with
  | .error _ => r
  | .ok s => (r.1 ++ (f s).1, (f s).2)

/-- The fixed seven-entry stream dictionary of `select_streams`
(`stream_dic` in the source): integer keys 0–6, any other key is absent. -/
def stream_dic (k : Int) : Option String :=
  if k = 0 then some "mot" else if k = 1 then some "dev" else if k = 2 then some "eq"
  else if k = 3 then some "power" else if k = 4 then some "met"
  else if k = 5 then some "fac" else if k = 6 then some "sys" else none

/-- The stream-selection `while` loop of `select_streams`, reading one
integer per iteration from `picks`.  Each value read is appended unless
already present (then a duplicate message is printed); the loop continues
while the value just read is in `[0, 6]`.  Returns the events printed and
`some` collected list, or `none` when the input ran out with the loop
still running. -/
def selectLoop : List Int → List Int → List Event × Option (List Int)
  | [], _ => ([], none)
  | x :: rest, streams =>
    if x ∈ streams then
      if 0 ≤ x ∧ x ≤ 6 then
        (Event.printDup :: (selectLoop rest streams).1, (selectLoop rest streams).2)
      else ([Event.printDup], some streams)
    else
      if 0 ≤ x ∧ x ≤ 6 then
        (Event.printAdded :: (selectLoop rest (streams ++ [x])).1,
         (selectLoop rest (streams ++ [x])).2)
      else ([Event.printAdded], some (streams ++ [x]))

/-- The in-place remap `for i in range(len(streams)): streams[i] = stream_dic[i]`
unrolled from position `i` for `fuel` remaining positions: looks the
POSITION up in `stream_dic` (this is what the source does), raising
`KeyError` when the position is not a key. -/
def remapFrom (i : Int) : Nat → Except PyError (List String)
  | 0 => .ok []
  | n + 1 =>
    match stream_dic i with
    | none => .error (.keyError (toString i))
    | some tag =>
      match remapFrom (i + 1) n with
      | .error e => .error e
      | .ok rest => .ok (tag :: rest)

/-- The full remap loop over a collected list: the result depends only on
the list's length, exactly as in the source. -/
def remapStreams (streams : List Int) : Except PyError (List String) :=
  remapFrom 0 streams.length

namespace Demo

/-- `Demo.authorize_user`: prompt for the EMOTIV id, fetch the login
identity, compare case-sensitively; on match request access; if granted,
the token branch is Python truthiness (`if not self.token`): both a
`None` token and a held EMPTY-string token are falsy and take the issue
(`authorize`) branch; only a held non-empty token is regenerated. -/
def authorize_user (env : Env) (s : DemoState) : StepResult :=
  let s1 := { s with current_username := some env.entered_username }
  let evs := [Event.call .get_user_login]
  match pyIndex env.login 0 with
  | .error e => (evs, .error e)
  | .ok info =>
    if env.entered_username = info.username then
      let evs := evs ++ [Event.call (.request_access s1.client_id s1.client_secret)]
      if env.accessGranted = false then
        (evs, .ok s1)
      else
        match s1.token with
        | none =>
          (evs ++ [Event.call (.authorize s1.client_id s1.client_secret)],
           .ok { s1 with token := some env.authorizeToken })
        | some t =>
          if t = "" then
            (evs ++ [Event.call (.authorize s1.client_id s1.client_secret)],
             .ok { s1 with token := some env.authorizeToken })
          else
            (evs ++ [Event.call (.generate_new_token t s1.client_id s1.client_secret)],
             .ok { s1 with token := some env.newToken })
    else
      (evs, .ok s1)

/-- `Demo.display_user_info`: fetch and display the user information. -/
def display_user_info (env : Env) (s : DemoState) : StepResult :=
  ([Event.call (.get_user_information s.token)], .ok { s with user_info := some env.userInfo })

/-- `Demo.show_subjects`: query subjects; an error-shaped response is
printed and the method returns early (leaving `subject_index` unset);
otherwise the indexed list is printed (raising `IndexError` if `count`
exceeds the list) and the operator's choice is stored. -/
def show_subjects (env : Env) (s : DemoState) : StepResult :=
  let evs := [Event.call (.query_subjects s.token)]
  let s1 := { s with all_subjects := some env.subjectsResp }
  match env.subjectsResp with
  | .err c m => (evs ++ [Event.printErr c m], .ok s1)
  | .ok count items =>
    if count ≤ items.length then
      (evs, .ok { s1 with subject_index := some env.subjectChoice,
                          current_subject := some none })
    else
      (evs, .error .indexError)

/-- `Demo.create_subject`: collect a required name and five optional
fields (only non-empty ones are sent) and call the create operation. -/
def create_subject (env : Env) (s : DemoState) : StepResult :=
  let f := env.subjectFields
  let s1 := { s with subject_name := some f.name }
  ([Event.call (.create_subject s1.token (optField f.name) (optField f.dateOfBirth)
      (optField f.sex) (optField f.countryCode) (optField f.state) (optField f.city))],
   .ok { s1 with current_subject := some (some env.createdSubject) })

/-- `Demo.select_subject`: set the current subject from the stored list
at the stored index; no network call. -/
def select_subject (s : DemoState) : StepResult :=
  match s.all_subjects with
  | none => ([], .error (.attrError "all_subjects"))
  | some (.err _ _) => ([], .error (.keyError "subjects"))
  | some (.ok _ items) =>
    match s.subject_index with
    | none => ([], .error (.attrError "subject_index"))
    | some i =>
      match pyIndex items i with
      | .error e => ([], .error e)
      | .ok subj => ([], .ok { s with current_subject := some (some subj) })

/-- `Demo.display_subject_info`: iterate the current subject's fields;
iterating Python `None` raises `TypeError`. -/
def display_subject_info (s : DemoState) : StepResult :=
  match s.current_subject with
  | none => ([], .error (.attrError "current_subject"))
  | some none => ([], .error .typeError)
  | some (some _) => ([], .ok s)

/-- `Demo.show_records`: query records by the current subject's name;
same error-shape early return as `show_subjects`, otherwise store the
operator's choice. -/
def show_records (env : Env) (s : DemoState) : StepResult :=
  match s.current_subject with
  | none => ([], .error (.attrError "current_subject"))
  | some none => ([], .error .typeError)
  | some (some subj) =>
    let evs := [Event.call (.query_records s.token subj.subjectName)]
    let s1 := { s with all_records := some env.recordsResp }
    match env.recordsResp with
    | .err c m => (evs ++ [Event.printErr c m], .ok s1)
    | .ok count items =>
      if count ≤ items.length then
        (evs, .ok { s1 with record_index := some env.recordChoice,
                            current_record := some none })
      else
        (evs, .error .indexError)

/-- `Demo.display_record_info`: fetch the chosen record's info by uuid
and store the first result. -/
def display_record_info (env : Env) (s : DemoState) : StepResult :=
  match s.all_records with
  | none => ([], .error (.attrError "all_records"))
  | some (.err _ _) => ([], .error (.keyError "records"))
  | some (.ok _ items) =>
    match s.record_index with
    | none => ([], .error (.attrError "record_index"))
    | some i =>
      match pyIndex items i with
      | .error e => ([], .error e)
      | .ok rcd =>
        let evs := [Event.call (.get_record_infos s.token [rcd.uuid])]
        match pyIndex env.recordInfos 0 with
        | .error e => (evs, .error e)
        | .ok r0 => (evs, .ok { s with current_record := some (some r0) })

/-- `Demo.find_headset`: refresh, wait for the scan warning, list
headsets, take the first, connect, wait for the connection warning, then
create a session; an error-shaped session response is printed and the
method returns early (leaving `session_id` unset). -/
def find_headset (env : Env) (s : DemoState) : StepResult :=
  let evs := [Event.call (.control_device "refresh" none),
              Event.warnWait env.warning1,
              Event.call .query_headsets]
  match pyIndex env.headsets 0 with
  | .error e => (evs, .error e)
  | .ok hs =>
    let s1 := { s with headset := some hs, headset_id := some hs.id }
    let evs := evs ++ [Event.call (.control_device "connect" (some hs.id)),
                       Event.warnWait env.warning2,
                       Event.call (.create_session s1.token hs.id "open")]
    match env.sessionResp with
    | .err c m => (evs ++ [Event.printErr c m], .ok s1)
    | .ok sid => (evs, .ok { s1 with session_id := some sid })

/-- `Demo.select_streams`: run the selection loop over the operator's
picks, remap the collected list in place by POSITION through
`stream_dic`, and submit one subscribe call (reading `session_id`, which
raises `AttributeError` when `find_headset` returned early). -/
def select_streams (env : Env) (s : DemoState) : StepResult :=
  match selectLoop env.streamPicks [] with
  | (evs, none) => (evs, .error .inputExhausted)
  | (evs, some streams) =>
    match remapStreams streams with
    | .error e => (evs, .error e)
    | .ok subList =>
      match s.session_id with
      | none => (evs, .error (.attrError "session_id"))
      | some sid =>
        (evs ++ [Event.call (.subscribe s.token sid subList)],
         .ok { s with streams := some subList })

/-- The tail of `Demo.create_record` after the two sub-steps: params
assembly and input collection; the only observable effect is the read of
`self.subject_name` when the override input is empty (the actual create
call is commented out in the source). -/
def create_record_tail (env : Env) (s : DemoState) : StepResult :=
  match s.session_id with
  | none => ([], .error (.attrError "session_id"))
  | some _ =>
    if env.recordSubjectName = "" then
      match s.subject_name with
      | none => ([], .error (.attrError "subject_name"))
      | some _ => ([], .ok s)
    else ([], .ok s)

/-- `Demo.create_record`: run `find_headset`, then `select_streams`,
then collect the record fields. -/
def create_record (env : Env) (s : DemoState) : StepResult :=
  seqStep (find_headset env s) (fun s1 =>
    seqStep (select_streams env s1) (fun s2 =>
      create_record_tail env s2))

end Demo

/-- The module-level branch after `show_subjects`:
`if demo.subject_index == -1: create_subject else select_subject`
(reading the attribute, which may be unset). -/
def branchSubject (env : Env) (s : DemoState) : StepResult :=
  match s.subject_index with
  | none => ([], .error (.attrError "subject_index"))
  | some i =>
    if i = -1 then Demo.create_subject env s else Demo.select_subject s

/-- The module-level branch after `show_records`. -/
def branchRecord (env : Env) (s : DemoState) : StepResult :=
  match s.record_index with
  | none => ([], .error (.attrError "record_index"))
  | some i =>
    if i = -1 then Demo.create_record env s else Demo.display_record_info env s

/-- The whole module-level script from `demo.authorize_user()` up to
(but excluding) `demo.cortex.close()`. -/
def mainSteps (env : Env) : StepResult :=
  seqStep (Demo.authorize_user env demoInit) (fun s1 =>
  seqStep (Demo.display_user_info env s1) (fun s2 =>
  seqStep (Demo.show_subjects env s2) (fun s3 =>
  seqStep (branchSubject env s3) (fun s4 =>
  seqStep (Demo.display_subject_info s4) (fun s5 =>
  seqStep (Demo.show_records env s5) (fun s6 =>
  branchRecord env s6))))))

/-- The outcome of one process run. -/
structure RunResult where
  trace : List Event
  closeCalled : Bool
  error : Option PyError
  deriving DecidableEq, Repr

/-- One full process run: the script followed by `demo.cortex.close()`;
an uncaught exception ends the process before `close` is reached. -/
def runMain (env : Env) : RunResult :=
  match mainSteps env with
  | (evs, .ok _) => ⟨evs, true, none⟩
  | (evs, .error e) => ⟨evs, false, some e⟩

/-- The stream lists submitted by subscribe calls in a trace. -/
def subscribedCalls (r : RunResult) : List (List String) :=
  r.trace.filterMap fun e =>
    match e with
    | .call (.subscribe _ _ strs) => some strs
    | _ => none

/-! ## Helper lemmas about the stream-selection loop and the remap -/

/-- A successful remap from position `i` yields one tag per position,
each looked up at its POSITION in `stream_dic`. -/
theorem remapFrom_ok_spec : ∀ (n : Nat) (i : Int) (l : List String),
    remapFrom i n = .ok l →
    l.length = n ∧ ∀ j (hj : j < l.length), stream_dic (i + j) = some (l.get ⟨j, hj⟩) := by
  intro n
  induction n with
  | zero =>
    intro i l h
    simp only [remapFrom] at h
    cases h
    simp
  | succ n ih =>
    intro i l h
    simp only [remapFrom] at h
    cases hd : stream_dic i with
    | none => rw [hd] at h; cases h
    | some tag =>
      rw [hd] at h
      cases hr : remapFrom (i + 1) n with
      | error e => rw [hr] at h; cases h
      | ok rest =>
        rw [hr] at h
        cases h
        obtain ⟨hlen, hall⟩ := ih (i + 1) rest hr
        refine ⟨by simp [hlen], ?_⟩
        intro j hj
        cases j with
        | zero => simpa using hd
        | succ k =>
          have hk : k < rest.length := by
            simp only [List.length_cons] at hj
            omega
          have hrec := hall k hk
          have harg : i + ((k + 1 : Nat) : Int) = (i + 1) + (k : Int) := by
            push_cast
            ring
          rw [harg]
          simpa using hrec

/-- The selection loop terminates (returns `some` collected list rather
than exhausting the input) whenever the input contains any value outside
`[0, 6]`. -/
theorem selectLoop_isSome : ∀ (picks acc : List Int),
    (∃ x ∈ picks, ¬(0 ≤ x ∧ x ≤ 6)) → ((selectLoop picks acc).2).isSome := by
  intro picks
  induction picks with
  | nil =>
    intro acc h
    simp at h
  | cons x rest ih =>
    intro acc h
    by_cases hr : 0 ≤ x ∧ x ≤ 6
    · have hrest : ∃ y ∈ rest, ¬(0 ≤ y ∧ y ≤ 6) := by
        rcases h with ⟨y, hy, hny⟩
        rcases List.mem_cons.mp hy with rfl | hmem
        · exact absurd hr hny
        · exact ⟨y, hmem, hny⟩
      by_cases hm : x ∈ acc
      · simpa [selectLoop, hm, hr] using ih acc hrest
      · simpa [selectLoop, hm, hr] using ih (acc ++ [x]) hrest
    · by_cases hm : x ∈ acc
      · simp [selectLoop, hm, hr]
      · simp [selectLoop, hm, hr]

/-- The loop never introduces a duplicate: a duplicate-free accumulator
stays duplicate-free in the collected result. -/
theorem selectLoop_nodup : ∀ (picks acc : List Int) (evs : List Event) (streams : List Int),
    acc.Nodup → selectLoop picks acc = (evs, some streams) → streams.Nodup := by
  intro picks
  induction picks with
  | nil =>
    intro acc evs streams _ h
    simp [selectLoop] at h
  | cons x rest ih =>
    intro acc evs streams hacc h
    by_cases hm : x ∈ acc
    · by_cases hr : 0 ≤ x ∧ x ≤ 6
      · simp only [selectLoop, if_pos hm, if_pos hr, Prod.mk.injEq] at h
        exact ih acc (selectLoop rest acc).1 streams hacc (by rw [← h.2])
      · simp only [selectLoop, if_pos hm, if_neg hr, Prod.mk.injEq, Option.some.injEq] at h
        exact h.2 ▸ hacc
    · have hacc2 : (acc ++ [x]).Nodup := by
        simp [List.nodup_append, hacc, hm]
      by_cases hr : 0 ≤ x ∧ x ≤ 6
      · simp only [selectLoop, if_neg hm, if_pos hr, Prod.mk.injEq] at h
        exact ih (acc ++ [x]) (selectLoop rest (acc ++ [x])).1 streams hacc2 (by rw [← h.2])
      · simp only [selectLoop, if_neg hm, if_neg hr, Prod.mk.injEq, Option.some.injEq] at h
        exact h.2 ▸ hacc2

/-- Shape of every collected list: the distinct in-range picks (plus the
in-range accumulator it started from) followed by the single
out-of-range value that stopped the loop. -/
theorem selectLoop_shape : ∀ (picks acc : List Int) (evs : List Event) (streams : List Int),
    (∀ a ∈ acc, 0 ≤ a ∧ a ≤ 6) → acc.Nodup →
    selectLoop picks acc = (evs, some streams) →
    ∃ ys x, streams = ys ++ [x] ∧ ys.Nodup ∧
      (∀ y ∈ ys, (0 ≤ y ∧ y ≤ 6) ∧ (y ∈ acc ∨ y ∈ picks)) ∧
      ¬(0 ≤ x ∧ x ≤ 6) ∧ x ∈ picks := by
  intro picks
  induction picks with
  | nil =>
    intro acc evs streams _ _ h
    simp [selectLoop] at h
  | cons x rest ih =>
    intro acc evs streams hran hacc h
    by_cases hm : x ∈ acc
    · by_cases hr : 0 ≤ x ∧ x ≤ 6
      · simp only [selectLoop, if_pos hm, if_pos hr, Prod.mk.injEq] at h
        obtain ⟨ys, z, h1, h2, h3, h4, h5⟩ :=
          ih acc (selectLoop rest acc).1 streams hran hacc (by rw [← h.2])
        refine ⟨ys, z, h1, h2, ?_, h4, List.mem_cons_of_mem x h5⟩
        intro y hy
        obtain ⟨hy1, hy2⟩ := h3 y hy
        exact ⟨hy1, hy2.imp id (List.mem_cons_of_mem x)⟩
      · exact absurd (hran x hm) hr
    · by_cases hr : 0 ≤ x ∧ x ≤ 6
      · simp only [selectLoop, if_neg hm, if_pos hr, Prod.mk.injEq] at h
        have hran2 : ∀ a ∈ acc ++ [x], 0 ≤ a ∧ a ≤ 6 := by
          intro a ha
          rcases List.mem_append.mp ha with ha | ha
          · exact hran a ha
          · simp at ha
            exact ha ▸ hr
        have hacc2 : (acc ++ [x]).Nodup := by
          simp [List.nodup_append, hacc, hm]
        obtain ⟨ys, z, h1, h2, h3, h4, h5⟩ :=
          ih (acc ++ [x]) (selectLoop rest (acc ++ [x])).1 streams hran2 hacc2 (by rw [← h.2])
        refine ⟨ys, z, h1, h2, ?_, h4, List.mem_cons_of_mem x h5⟩
        intro y hy
        obtain ⟨hy1, hy2⟩ := h3 y hy
        refine ⟨hy1, ?_⟩
        rcases hy2 with hy2 | hy2
        · rcases List.mem_append.mp hy2 with hy2 | hy2
          · exact Or.inl hy2
          · simp at hy2
            exact Or.inr (hy2 ▸ List.mem_cons_self x rest)
        · exact Or.inr (List.mem_cons_of_mem x hy2)
      · simp only [selectLoop, if_neg hm, if_neg hr, Prod.mk.injEq, Option.some.injEq] at h
        refine ⟨acc, x, h.2.symm, hacc, ?_, hr, List.mem_cons_self x rest⟩
        intro y hy
        exact ⟨hran y hy, Or.inl hy⟩

/-- The selection loop prints messages but issues no API call. -/
theorem selectLoop_no_call : ∀ (picks acc : List Int) (c : ApiCall),
    Event.call c ∉ (selectLoop picks acc).1 := by
  intro picks
  induction picks with
  | nil =>
    intro acc c
    simp [selectLoop]
  | cons x rest ih =>
    intro acc c
    by_cases hm : x ∈ acc <;> by_cases hr : 0 ≤ x ∧ x ≤ 6 <;>
      simp [selectLoop, hm, hr, ih]

/-! ## Token threading: which calls carry the cortex token -/

/-- The `cortex_token` argument of a subject, record, headset-session or
subscription call (`none` for calls that belong to the authorization
phase itself or carry no token). -/
def srhToken : ApiCall → Option (Option String)
  | .query_subjects t => some t
  | .create_subject t _ _ _ _ _ _ => some t
  | .query_records t _ => some t
  | .get_record_infos t _ => some t
  | .create_session t _ _ => some t
  | .subscribe t _ _ => some t
  | _ => none

/-- The token argument carried by an event, when it is such a call. -/
def tokOfEvent : Event → Option (Option String)
  | .call c => srhToken c
  | _ => none

/-- Every token-carrying call of the trace carries `some tok`. -/
def TraceOk (tok : String) (evs : List Event) : Prop :=
  ∀ e ∈ evs, ∀ t, tokOfEvent e = some t → t = some tok

/-- A step whose trace is token-clean and whose successful outcome still
holds the token. -/
def StepOk (tok : String) (r : StepResult) : Prop :=
  TraceOk tok r.1 ∧ ∀ s, r.2 = .ok s → s.token = some tok

theorem traceOk_nil (tok : String) : TraceOk tok [] := by
  intro e he
  simp at he

theorem traceOk_append {tok : String} {l1 l2 : List Event}
    (h1 : TraceOk tok l1) (h2 : TraceOk tok l2) : TraceOk tok (l1 ++ l2) := by
  intro e he t ht
  rcases List.mem_append.mp he with he | he
  · exact h1 e he t ht
  · exact h2 e he t ht

theorem seqStep_stepOk {tok : String} {r : StepResult} {f : DemoState → StepResult}
    (h1 : StepOk tok r) (h2 : ∀ s, s.token = some tok → StepOk tok (f s)) :
    StepOk tok (seqStep r f) := by
  rcases r with ⟨evs, rs⟩
  cases rs with
  | error e => exact h1
  | ok s =>
    have hs := h1.2 s rfl
    have h3 := h2 s hs
    refine ⟨traceOk_append h1.1 h3.1, ?_⟩
    intro s' hs'
    exact h3.2 s' hs'

theorem display_user_info_stepOk (env : Env) (s : DemoState) (tok : String)
    (h : s.token = some tok) : StepOk tok (Demo.display_user_info env s) := by
  constructor
  · intro e he t ht
    simp [Demo.display_user_info] at he
    simp [he, tokOfEvent, srhToken] at ht
  · intro s' hs'
    simp [Demo.display_user_info] at hs'
    rw [← hs']
    exact h

theorem show_subjects_stepOk (env : Env) (s : DemoState) (tok : String)
    (h : s.token = some tok) : StepOk tok (Demo.show_subjects env s) := by
  rcases hresp : env.subjectsResp with ⟨c, m⟩ | ⟨count, items⟩
  · constructor
    · intro e he t ht
      simp [Demo.show_subjects, hresp] at he
      rcases he with he | he <;> rw [he] at ht <;>
        simp [tokOfEvent, srhToken, h] at ht
      exact ht.symm
    · intro s' hs'
      simp [Demo.show_subjects, hresp] at hs'
      subst hs'
      exact h
  · by_cases hc : count ≤ items.length
    · constructor
      · intro e he t ht
        simp [Demo.show_subjects, hresp, hc] at he
        rw [he] at ht
        simp [tokOfEvent, srhToken, h] at ht
        exact ht.symm
      · intro s' hs'
        simp [Demo.show_subjects, hresp, hc] at hs'
        subst hs'
        exact h
    · constructor
      · intro e he t ht
        simp [Demo.show_subjects, hresp, hc] at he
        rw [he] at ht
        simp [tokOfEvent, srhToken, h] at ht
        exact ht.symm
      · intro s' hs'
        simp [Demo.show_subjects, hresp, hc] at hs'

theorem create_subject_stepOk (env : Env) (s : DemoState) (tok : String)
    (h : s.token = some tok) : StepOk tok (Demo.create_subject env s) := by
  constructor
  · intro e he t ht
    simp [Demo.create_subject] at he
    rw [he] at ht
    simp [tokOfEvent, srhToken, h] at ht
    exact ht.symm
  · intro s' hs'
    simp [Demo.create_subject] at hs'
    subst hs'
    exact h

theorem select_subject_stepOk (s : DemoState) (tok : String)
    (h : s.token = some tok) : StepOk tok (Demo.select_subject s) := by
  rcases hsub : s.all_subjects with _ | resp
  · exact ⟨by simp [Demo.select_subject, hsub, TraceOk], by simp [Demo.select_subject, hsub]⟩
  · rcases resp with ⟨c, m⟩ | ⟨count, items⟩
    · exact ⟨by simp [Demo.select_subject, hsub, TraceOk], by simp [Demo.select_subject, hsub]⟩
    · rcases hidx : s.subject_index with _ | i
      · exact ⟨by simp [Demo.select_subject, hsub, hidx, TraceOk],
               by simp [Demo.select_subject, hsub, hidx]⟩
      · rcases hpy : pyIndex items i with e | subj
        · exact ⟨by simp [Demo.select_subject, hsub, hidx, hpy, TraceOk],
                 by simp [Demo.select_subject, hsub, hidx, hpy]⟩
        · refine ⟨by simp [Demo.select_subject, hsub, hidx, hpy, TraceOk], ?_⟩
          intro s' hs'
          simp [Demo.select_subject, hsub, hidx, hpy] at hs'
          subst hs'
          exact h

theorem display_subject_info_stepOk (s : DemoState) (tok : String)
    (h : s.token = some tok) : StepOk tok (Demo.display_subject_info s) := by
  rcases hcur : s.current_subject with _ | opt
  · exact ⟨by simp [Demo.display_subject_info, hcur, TraceOk],
           by simp [Demo.display_subject_info, hcur]⟩
  · rcases opt with _ | subj
    · exact ⟨by simp [Demo.display_subject_info, hcur, TraceOk],
             by simp [Demo.display_subject_info, hcur]⟩
    · refine ⟨by simp [Demo.display_subject_info, hcur, TraceOk], ?_⟩
      intro s' hs'
      simp [Demo.display_subject_info, hcur] at hs'
      subst hs'
      exact h

theorem show_records_stepOk (env : Env) (s : DemoState) (tok : String)
    (h : s.token = some tok) : StepOk tok (Demo.show_records env s) := by
  rcases hcur : s.current_subject with _ | opt
  · exact ⟨by simp [Demo.show_records, hcur, TraceOk], by simp [Demo.show_records, hcur]⟩
  · rcases opt with _ | subj
    · exact ⟨by simp [Demo.show_records, hcur, TraceOk], by simp [Demo.show_records, hcur]⟩
    · rcases hresp : env.recordsResp with ⟨c, m⟩ | ⟨count, items⟩
      · constructor
        · intro e he t ht
          simp [Demo.show_records, hcur, hresp] at he
          rcases he with he | he <;> rw [he] at ht <;>
            simp [tokOfEvent, srhToken, h] at ht
          exact ht.symm
        · intro s' hs'
          simp [Demo.show_records, hcur, hresp] at hs'
          subst hs'
          exact h
      · by_cases hc : count ≤ items.length
        · constructor
          · intro e he t ht
            simp [Demo.show_records, hcur, hresp, hc] at he
            rw [he] at ht
            simp [tokOfEvent, srhToken, h] at ht
            exact ht.symm
          · intro s' hs'
            simp [Demo.show_records, hcur, hresp, hc] at hs'
            subst hs'
            exact h
        · constructor
          · intro e he t ht
            simp [Demo.show_records, hcur, hresp, hc] at he
            rw [he] at ht
            simp [tokOfEvent, srhToken, h] at ht
            exact ht.symm
          · intro s' hs'
            simp [Demo.show_records, hcur, hresp, hc] at hs'

theorem display_record_info_stepOk (env : Env) (s : DemoState) (tok : String)
    (h : s.token = some tok) : StepOk tok (Demo.display_record_info env s) := by
  rcases hrec : s.all_records with _ | resp
  · exact ⟨by simp [Demo.display_record_info, hrec, TraceOk],
           by simp [Demo.display_record_info, hrec]⟩
  · rcases resp with ⟨c, m⟩ | ⟨count, items⟩
    · exact ⟨by simp [Demo.display_record_info, hrec, TraceOk],
             by simp [Demo.display_record_info, hrec]⟩
    · rcases hidx : s.record_index with _ | i
      · exact ⟨by simp [Demo.display_record_info, hrec, hidx, TraceOk],
               by simp [Demo.display_record_info, hrec, hidx]⟩
      · rcases hpy : pyIndex items i with e | rcd
        · exact ⟨by simp [Demo.display_record_info, hrec, hidx, hpy, TraceOk],
                 by simp [Demo.display_record_info, hrec, hidx, hpy]⟩
        · rcases hpy0 : pyIndex env.recordInfos 0 with e | r0
          · constructor
            · intro e' he t ht
              simp [Demo.display_record_info, hrec, hidx, hpy, hpy0] at he
              rw [he] at ht
              simp [tokOfEvent, srhToken, h] at ht
              exact ht.symm
            · intro s' hs'
              simp [Demo.display_record_info, hrec, hidx, hpy, hpy0] at hs'
          · constructor
            · intro e' he t ht
              simp [Demo.display_record_info, hrec, hidx, hpy, hpy0] at he
              rw [he] at ht
              simp [tokOfEvent, srhToken, h] at ht
              exact ht.symm
            · intro s' hs'
              simp [Demo.display_record_info, hrec, hidx, hpy, hpy0] at hs'
              subst hs'
              exact h

theorem find_headset_stepOk (env : Env) (s : DemoState) (tok : String)
    (h : s.token = some tok) : StepOk tok (Demo.find_headset env s) := by
  rcases hpy : pyIndex env.headsets 0 with e | hs
  · constructor
    · intro e' he t ht
      simp [Demo.find_headset, hpy] at he
      rcases he with he | he | he <;> rw [he] at ht <;>
        simp [tokOfEvent, srhToken, h] at ht
    · intro s' hs'
      simp [Demo.find_headset, hpy] at hs'
  · rcases hresp : env.sessionResp with ⟨c, m⟩ | sid
    · constructor
      · intro e' he t ht
        simp [Demo.find_headset, hpy, hresp] at he
        rcases he with he | he | he | he | he | he | he <;> rw [he] at ht <;>
          simp [tokOfEvent, srhToken, h] at ht
        exact ht.symm
      · intro s' hs'
        simp [Demo.find_headset, hpy, hresp] at hs'
        subst hs'
        exact h
    · constructor
      · intro e' he t ht
        simp [Demo.find_headset, hpy, hresp] at he
        rcases he with he | he | he | he | he | he <;> rw [he] at ht <;>
          simp [tokOfEvent, srhToken, h] at ht
        exact ht.symm
      · intro s' hs'
        simp [Demo.find_headset, hpy, hresp] at hs'
        subst hs'
        exact h

theorem pyIndex_cons_zero {α : Type} (a : α) (l : List α) : pyIndex (a :: l) 0 = .ok a := by
  simp [pyIndex]

theorem select_streams_stepOk (env : Env) (s : DemoState) (tok : String)
    (h : s.token = some tok) : StepOk tok (Demo.select_streams env s) := by
  rcases hloop : selectLoop env.streamPicks [] with ⟨evs, _ | streams⟩
  · constructor
    · intro e he t ht
      simp [Demo.select_streams, hloop] at he
      cases e with
      | call c =>
        have hn := selectLoop_no_call env.streamPicks [] c
        rw [hloop] at hn
        exact absurd he hn
      | warnWait w => simp [tokOfEvent] at ht
      | printErr a b => simp [tokOfEvent] at ht
      | printAdded => simp [tokOfEvent] at ht
      | printDup => simp [tokOfEvent] at ht
    · intro s' hs'
      simp [Demo.select_streams, hloop] at hs'
  · have hnocall : ∀ c : ApiCall, Event.call c ∉ evs := by
      intro c
      have hn := selectLoop_no_call env.streamPicks [] c
      rw [hloop] at hn
      exact hn
    rcases hmap : remapStreams streams with e0 | subList
    · constructor
      · intro e he t ht
        simp [Demo.select_streams, hloop, hmap] at he
        cases e with
        | call c => exact absurd he (hnocall c)
        | warnWait w => simp [tokOfEvent] at ht
        | printErr a b => simp [tokOfEvent] at ht
        | printAdded => simp [tokOfEvent] at ht
        | printDup => simp [tokOfEvent] at ht
      · intro s' hs'
        simp [Demo.select_streams, hloop, hmap] at hs'
    · rcases hsid : s.session_id with _ | sid
      · constructor
        · intro e he t ht
          simp [Demo.select_streams, hloop, hmap, hsid] at he
          cases e with
          | call c => exact absurd he (hnocall c)
          | warnWait w => simp [tokOfEvent] at ht
          | printErr a b => simp [tokOfEvent] at ht
          | printAdded => simp [tokOfEvent] at ht
          | printDup => simp [tokOfEvent] at ht
        · intro s' hs'
          simp [Demo.select_streams, hloop, hmap, hsid] at hs'
      · constructor
        · intro e he t ht
          simp [Demo.select_streams, hloop, hmap, hsid] at he
          rcases he with he | he
          · cases e with
            | call c => exact absurd he (hnocall c)
            | warnWait w => simp [tokOfEvent] at ht
            | printErr a b => simp [tokOfEvent] at ht
            | printAdded => simp [tokOfEvent] at ht
            | printDup => simp [tokOfEvent] at ht
          · rw [he] at ht
            simp [tokOfEvent, srhToken, h] at ht
            exact ht.symm
        · intro s' hs'
          simp [Demo.select_streams, hloop, hmap, hsid] at hs'
          subst hs'
          exact h

theorem create_record_tail_stepOk (env : Env) (s : DemoState) (tok : String)
    (h : s.token = some tok) : StepOk tok (Demo.create_record_tail env s) := by
  rcases hsid : s.session_id with _ | sid
  · exact ⟨by simp [Demo.create_record_tail, hsid, TraceOk],
           by simp [Demo.create_record_tail, hsid]⟩
  · by_cases hn : env.recordSubjectName = ""
    · rcases hsn : s.subject_name with _ | sn
      · exact ⟨by simp [Demo.create_record_tail, hsid, hn, hsn, TraceOk],
               by simp [Demo.create_record_tail, hsid, hn, hsn]⟩
      · refine ⟨by simp [Demo.create_record_tail, hsid, hn, hsn, TraceOk], ?_⟩
        intro s' hs'
        simp [Demo.create_record_tail, hsid, hn, hsn] at hs'
        subst hs'
        exact h
    · refine ⟨by simp [Demo.create_record_tail, hsid, hn, TraceOk], ?_⟩
      intro s' hs'
      simp [Demo.create_record_tail, hsid, hn] at hs'
      subst hs'
      exact h

theorem create_record_stepOk (env : Env) (s : DemoState) (tok : String)
    (h : s.token = some tok) : StepOk tok (Demo.create_record env s) := by
  unfold Demo.create_record
  apply seqStep_stepOk (find_headset_stepOk env s tok h)
  intro s1 h1
  apply seqStep_stepOk (select_streams_stepOk env s1 tok h1)
  intro s2 h2
  exact create_record_tail_stepOk env s2 tok h2

theorem branchSubject_stepOk (env : Env) (s : DemoState) (tok : String)
    (h : s.token = some tok) : StepOk tok (branchSubject env s) := by
  rcases hidx : s.subject_index with _ | i
  · exact ⟨by simp [branchSubject, hidx, TraceOk], by simp [branchSubject, hidx]⟩
  · by_cases hi : i = -1
    · simpa [branchSubject, hidx, hi] using create_subject_stepOk env s tok h
    · simpa [branchSubject, hidx, hi] using select_subject_stepOk s tok h

theorem branchRecord_stepOk (env : Env) (s : DemoState) (tok : String)
    (h : s.token = some tok) : StepOk tok (branchRecord env s) := by
  rcases hidx : s.record_index with _ | i
  · exact ⟨by simp [branchRecord, hidx, TraceOk], by simp [branchRecord, hidx]⟩
  · by_cases hi : i = -1
    · simpa [branchRecord, hidx, hi] using create_record_stepOk env s tok h
    · simpa [branchRecord, hidx, hi] using display_record_info_stepOk env s tok h

/-- Under a matching identifier and granted access, `authorize_user` from
the initial state issues login query, access request and token issuance,
and ends holding the issued token. -/
theorem authorize_user_success (env : Env) (info : LoginInfo)
    (hl : env.login = [info]) (hm : env.entered_username = info.username)
    (hg : env.accessGranted = true) :
    Demo.authorize_user env demoInit =
      ([Event.call .get_user_login, Event.call (.request_access "" ""),
        Event.call (.authorize "" "")],
       .ok { demoInit with current_username := some env.entered_username,
                           token := some env.authorizeToken }) := by
  simp [Demo.authorize_user, hl, hm, hg, pyIndex_cons_zero, demoInit]

/-! ## Concrete environments used by counterexamples and witnesses -/

/-- The end-to-end scenario of the spec: identifier matches, access
granted, token issued, two subjects (pick 0), two records (pick -1), one
headset, scan warning 142 and connect warning 102, session created,
stream picks 0, 3, -1. -/
def envScenario : Env :=
  { entered_username := "alice", login := [⟨"alice", "2024-01-01"⟩], accessGranted := true,
    authorizeToken := "tok", newToken := "tok2",
    userInfo := ⟨"alice", "Alice", "Ann", true⟩,
    subjectsResp := .ok 2 [⟨"S1"⟩, ⟨"S2"⟩], subjectChoice := 0,
    subjectFields := ⟨"", "", "", "", "", ""⟩, createdSubject := ⟨"new"⟩,
    recordsResp := .ok 2 [⟨"R1", "u1"⟩, ⟨"R2", "u2"⟩], recordChoice := -1,
    recordInfos := [⟨"R1", "u1"⟩],
    headsets := [⟨"H1"⟩], warning1 := 142, warning2 := 102,
    sessionResp := .ok "sess1", streamPicks := [0, 3, -1],
    subscribeSuccess := ["mot"], subscribeFailure := [],
    recordTitle := "T", recordSubjectName := "S1", recordDescription := "" }

/-- The scenario but the `query_subjects` response is the error shape
`code 5, message "no access"`. -/
def envSubjectsErr : Env :=
  { envScenario with subjectsResp := .err 5 "no access" }

/-- The scenario but the operator enters `"Alice"` while the server's
login identity is `"alice"`: a case-only mismatch. -/
def envMismatch : Env :=
  { envScenario with entered_username := "Alice" }

/-- The trace of a run is the trace of the script, whether or not an
exception ended the process. -/
theorem runMain_trace (env : Env) : (runMain env).trace = (mainSteps env).1 := by
  unfold runMain
  rcases h : mainSteps env with ⟨evs, r⟩
  cases r <;> rfl

/-! ## Claims -/

/-- Claim C7: the stream-selection loop of `select_streams` terminates
(returns a collected list instead of consuming the whole input) for any
input sequence containing a value outside `[0, 6]` — not just the
literal `-1`. -/
theorem c7_loop_terminates (picks : List Int) (x : Int) (hx : x ∈ picks)
    (hout : ¬(0 ≤ x ∧ x ≤ 6)) : ((selectLoop picks []).2).isSome :=
  selectLoop_isSome picks [] ⟨x, hx, hout⟩

theorem c7_witness :
    ((-2 : Int) ∈ ([0, -2, 5] : List Int)) ∧ ((selectLoop [0, -2, 5] []).2).isSome :=
  ⟨by decide, c7_loop_terminates [0, -2, 5] (-2) (by decide) (by decide)⟩

/-- Claim C8: the collected stream list never contains duplicates, and
picking an already-collected valid index leaves the collected list
unchanged, emits the duplicate message, and continues the loop. -/
theorem c8_no_duplicates :
    (∀ (picks : List Int) (evs : List Event) (streams : List Int),
      selectLoop picks [] = (evs, some streams) → streams.Nodup) ∧
    (∀ (x : Int) (rest acc : List Int), x ∈ acc → (0 ≤ x ∧ x ≤ 6) →
      selectLoop (x :: rest) acc =
        (Event.printDup :: (selectLoop rest acc).1, (selectLoop rest acc).2)) := by
  constructor
  · intro picks evs streams h
    exact selectLoop_nodup picks [] evs streams List.nodup_nil h
  · intro x rest acc hm hr
    simp [selectLoop, hm, hr]

theorem c8_witness :
    (([0, -1] : List Int).Nodup) ∧
    (selectLoop [0, -1] [0] =
      (Event.printDup :: (selectLoop [-1] [0]).1, (selectLoop [-1] [0]).2)) :=
  ⟨c8_no_duplicates.1 [0, 0, -1]
      [Event.printAdded, Event.printDup, Event.printAdded] [0, -1] (by decide),
   c8_no_duplicates.2 0 [-1] [0] (by decide) (by decide)⟩

/-- Claim C10: the out-of-range value that stops the loop is itself the
last element of the collected list, every element before it is a
distinct in-range pick, and a successful remap therefore submits one
more entry than the number of distinct in-range indices picked. -/
theorem c10_sentinel_collected :
    ∀ (picks : List Int) (evs : List Event) (streams : List Int),
      selectLoop picks [] = (evs, some streams) →
      streams ≠ [] ∧
      (∀ x, streams.getLast? = some x → ¬(0 ≤ x ∧ x ≤ 6) ∧ x ∈ picks) ∧
      streams.dropLast.Nodup ∧
      (∀ y ∈ streams.dropLast, (0 ≤ y ∧ y ≤ 6) ∧ y ∈ picks) ∧
      (∀ sub, remapStreams streams = .ok sub →
        sub.length = streams.dropLast.length + 1) := by
  intro picks evs streams h
  obtain ⟨ys, x, h1, h2, h3, h4, h5⟩ :=
    selectLoop_shape picks [] evs streams (by simp) List.nodup_nil h
  have hdrop : streams.dropLast = ys := by
    rw [h1]
    simp
  have hlast : streams.getLast? = some x := by
    rw [h1]
    simp
  refine ⟨by simp [h1], ?_, ?_, ?_, ?_⟩
  · intro z hz
    rw [hlast] at hz
    cases hz
    exact ⟨h4, h5⟩
  · rw [hdrop]
    exact h2
  · intro y hy
    rw [hdrop] at hy
    obtain ⟨hy1, hy2⟩ := h3 y hy
    rcases hy2 with hy2 | hy2
    · simp at hy2
    · exact ⟨hy1, hy2⟩
  · intro sub hsub
    have hlen := (remapFrom_ok_spec streams.length 0 sub hsub).1
    rw [hlen, h1]
    simp [hdrop, h1]

theorem c10_witness :
    ((([0, 3, -1] : List Int)).dropLast.Nodup) ∧
    (¬(0 ≤ (-1 : Int) ∧ (-1 : Int) ≤ 6) ∧ (-1 : Int) ∈ ([0, 3, -1] : List Int)) := by
  have h := c10_sentinel_collected [0, 3, -1]
    [Event.printAdded, Event.printAdded, Event.printAdded] [0, 3, -1] (by decide)
  exact ⟨h.2.2.1, h.2.1 (-1) (by decide)⟩

/-- Claim C2: whenever `select_streams` completes and submits a stream
list, the entry at each position `i` is the tag `stream_dic` holds at
KEY `i` — the remap is positional, independent of the picked values. -/
theorem c2_positional_remap (env : Env) (s : DemoState) (evs : List Event)
    (s' : DemoState) (sub : List String)
    (h : Demo.select_streams env s = (evs, .ok s')) (hs : s'.streams = some sub) :
    ∀ i (hi : i < sub.length), stream_dic (Int.ofNat i) = some (sub.get ⟨i, hi⟩) := by
  rcases hloop : selectLoop env.streamPicks [] with ⟨evs0, _ | streams⟩
  · simp [Demo.select_streams, hloop] at h
  · rcases hmap : remapStreams streams with e0 | subList
    · simp [Demo.select_streams, hloop, hmap] at h
    · rcases hsid : s.session_id with _ | sid
      · simp [Demo.select_streams, hloop, hmap, hsid] at h
      · simp [Demo.select_streams, hloop, hmap, hsid] at h
        rw [← h.2] at hs
        simp at hs
        subst hs
        intro i hi
        have := (remapFrom_ok_spec streams.length 0 subList hmap).2 i hi
        simpa using this

theorem c2_witness :
    stream_dic (Int.ofNat 1) =
      some ((["mot", "dev", "eq"] : List String).get ⟨1, by decide⟩) :=
  c2_positional_remap envScenario { demoInit with session_id := some "sess1" }
    [Event.printAdded, Event.printAdded, Event.printAdded,
     Event.call (.subscribe none "sess1" ["mot", "dev", "eq"])]
    { demoInit with session_id := some "sess1", streams := some ["mot", "dev", "eq"] }
    ["mot", "dev", "eq"] (by rfl) (by rfl) 1 (by decide)

/-- Claim C1 (code divergence, evaluated at the failing input): in the
end-to-end scenario with stream picks 0, 3, -1, the single subscribe
call submits `["mot", "dev", "eq"]` — not `["mot", "power"]` — because
the terminating `-1` is itself collected and the remap replaces each
entry by the tag at its POSITION. -/
theorem c1_scenario_streams :
    subscribedCalls (runMain envScenario) = [["mot", "dev", "eq"]] ∧
    subscribedCalls (runMain envScenario) ≠ [["mot", "power"]] := by
  constructor
  · rfl
  · decide

/-- Claim C3 (counterexample): with the error-shaped subjects response
`code 5, message "no access"` the error is reported, yet the process
faults reading the unset subject index instead of reaching the end of
the script, so `close` is never called. -/
theorem c3_counterexample :
    Event.printErr 5 "no access" ∈ (runMain envSubjectsErr).trace ∧
    (runMain envSubjectsErr).closeCalled = false ∧
    (runMain envSubjectsErr).error = some (PyError.attrError "subject_index") := by
  decide

/-- Claim C3 (amended): an error-shaped subjects response is reported and
`show_subjects` itself returns without raising; but the top-level script
then reads the unset subject index, raises `AttributeError`, and the
process ends before `close` is called. -/
theorem c3_amended (env : Env) (info : LoginInfo) (c : Int) (m : String)
    (hl : env.login = [info]) (hm : env.entered_username = info.username)
    (hg : env.accessGranted = true) (hsub : env.subjectsResp = .err c m) :
    (runMain env).trace =
      [Event.call .get_user_login, Event.call (.request_access "" ""),
       Event.call (.authorize "" ""),
       Event.call (.get_user_information (some env.authorizeToken)),
       Event.call (.query_subjects (some env.authorizeToken)),
       Event.printErr c m] ∧
    (runMain env).closeCalled = false ∧
    (runMain env).error = some (PyError.attrError "subject_index") := by
  have hauth := authorize_user_success env info hl hm hg
  unfold runMain mainSteps
  rw [hauth]
  simp [seqStep, Demo.display_user_info, Demo.show_subjects, hsub, branchSubject, demoInit]

theorem c3_witness :
    (runMain envSubjectsErr).trace =
      [Event.call .get_user_login, Event.call (.request_access "" ""),
       Event.call (.authorize "" ""),
       Event.call (.get_user_information (some "tok")),
       Event.call (.query_subjects (some "tok")),
       Event.printErr 5 "no access"] ∧
    (runMain envSubjectsErr).closeCalled = false ∧
    (runMain envSubjectsErr).error = some (PyError.attrError "subject_index") :=
  c3_amended envSubjectsErr ⟨"alice", "2024-01-01"⟩ 5 "no access" rfl rfl rfl rfl

/-- Claim C4 (counterexample): the identifiers differ only in case, the
mismatch path is taken, and yet the trace shows FetchUserInfo and
ListSubjects were still executed afterwards. -/
theorem c4_counterexample :
    envMismatch.entered_username = "Alice" ∧
    envMismatch.login = [⟨"alice", "2024-01-01"⟩] ∧
    Event.call (ApiCall.get_user_information none) ∈ (runMain envMismatch).trace ∧
    Event.call (ApiCall.query_subjects none) ∈ (runMain envMismatch).trace := by
  decide

/-- Claim C4 (amended): the identifier comparison is case-sensitive
string equality; on mismatch `authorize_user` itself returns after only
the login query, requesting no access and no token — but the top-level
script is unconditional, so the very next event is the FetchUserInfo
call (issued with a null token), and later steps follow. -/
theorem c4_amended (env : Env) (info : LoginInfo)
    (hl : env.login = [info]) (hm : env.entered_username ≠ info.username) :
    Demo.authorize_user env demoInit =
      ([Event.call .get_user_login],
       .ok { demoInit with current_username := some env.entered_username }) ∧
    (runMain env).trace.take 2 =
      [Event.call .get_user_login, Event.call (.get_user_information none)] := by
  have h1 : Demo.authorize_user env demoInit =
      ([Event.call .get_user_login],
       .ok { demoInit with current_username := some env.entered_username }) := by
    simp [Demo.authorize_user, hl, hm, pyIndex_cons_zero, demoInit]
  refine ⟨h1, ?_⟩
  rw [runMain_trace]
  unfold mainSteps
  rw [h1]
  simp [seqStep, Demo.display_user_info, demoInit]

theorem c4_witness :
    Demo.authorize_user envMismatch demoInit =
      ([Event.call .get_user_login],
       .ok { demoInit with current_username := some "Alice" }) ∧
    (runMain envMismatch).trace.take 2 =
      [Event.call .get_user_login, Event.call (.get_user_information none)] :=
  c4_amended envMismatch ⟨"alice", "2024-01-01"⟩ rfl (by decide)

/-- Claim C5 (counterexample): on the identity-mismatch path no token is
ever set, yet subject, record, headset-session and subscription calls
are all still attempted, each carrying a null token. -/
theorem c5_counterexample :
    Event.call (ApiCall.query_subjects none) ∈ (runMain envMismatch).trace ∧
    Event.call (ApiCall.query_records none "S1") ∈ (runMain envMismatch).trace ∧
    Event.call (ApiCall.create_session none "H1" "open") ∈ (runMain envMismatch).trace ∧
    Event.call (ApiCall.subscribe none "sess1" ["mot", "dev", "eq"])
      ∈ (runMain envMismatch).trace := by
  decide

/-- Claim C5 (amended): on the path where authentication fully succeeds
(identifier matches and access granted), the issued token is held before
any subject, record or headset-session operation, and every such call in
the whole run carries it; on the failure paths the operations are still
attempted with a null token (see the counterexample). -/
theorem c5_token_amended (env : Env) (info : LoginInfo)
    (hl : env.login = [info]) (hm : env.entered_username = info.username)
    (hg : env.accessGranted = true) :
    ∀ e ∈ (runMain env).trace, ∀ t, tokOfEvent e = some t →
      t = some env.authorizeToken := by
  have hauth := authorize_user_success env info hl hm hg
  have hok : StepOk env.authorizeToken (mainSteps env) := by
    unfold mainSteps
    apply seqStep_stepOk
    · rw [hauth]
      constructor
      · intro e he t ht
        simp at he
        rcases he with he | he | he <;> rw [he] at ht <;>
          simp [tokOfEvent, srhToken] at ht
      · intro s' hs'
        simp at hs'
        subst hs'
        rfl
    · intro s1 h1
      apply seqStep_stepOk (display_user_info_stepOk env s1 env.authorizeToken h1)
      intro s2 h2
      apply seqStep_stepOk (show_subjects_stepOk env s2 env.authorizeToken h2)
      intro s3 h3
      apply seqStep_stepOk (branchSubject_stepOk env s3 env.authorizeToken h3)
      intro s4 h4
      apply seqStep_stepOk (display_subject_info_stepOk s4 env.authorizeToken h4)
      intro s5 h5
      apply seqStep_stepOk (show_records_stepOk env s5 env.authorizeToken h5)
      intro s6 h6
      exact branchRecord_stepOk env s6 env.authorizeToken h6
  intro e he t ht
  rw [runMain_trace] at he
  exact hok.1 e he t ht

theorem c5_witness :
    (some "tok" : Option String) = some envScenario.authorizeToken :=
  c5_token_amended envScenario ⟨"alice", "2024-01-01"⟩ rfl rfl rfl
    (Event.call (ApiCall.query_subjects (some "tok"))) (by decide)
    (some "tok") (by decide)

/-- Claim C6: an error-shaped response (code and message present) makes
`show_subjects` and `show_records` print the code and the message and
return normally, storing only the raw response — the count field and the
results list of that response are never read (the selection index stays
unset). -/
theorem c6_error_shape (env : Env) (s : DemoState) (c : Int) (m : String) :
    (env.subjectsResp = .err c m →
      Demo.show_subjects env s =
        ([Event.call (.query_subjects s.token), Event.printErr c m],
         .ok { s with all_subjects := some (.err c m) })) ∧
    (∀ subj, env.recordsResp = .err c m → s.current_subject = some (some subj) →
      Demo.show_records env s =
        ([Event.call (.query_records s.token subj.subjectName), Event.printErr c m],
         .ok { s with all_records := some (.err c m) })) := by
  constructor
  · intro h
    simp [Demo.show_subjects, h]
  · intro subj h1 h2
    simp [Demo.show_records, h1, h2]

theorem c6_witness :
    Demo.show_subjects envSubjectsErr demoInit =
      ([Event.call (.query_subjects none), Event.printErr 5 "no access"],
       .ok { demoInit with all_subjects := some (.err 5 "no access") }) :=
  (c6_error_shape envSubjectsErr demoInit 5 "no access").1 rfl

/-- Claim C9 (counterexample): a held EMPTY-string token is a held
token (the field is not `None`), yet the token step issues the
`authorize` (issue) call — the trace ends in `authorize` and contains no
`generate_new_token` call — because the source's branch is the
truthiness test `if not self.token`, which treats `""` as no token. -/
theorem c9_counterexample :
    ({ demoInit with token := some "" } : DemoState).token ≠ none ∧
    Demo.authorize_user envScenario { demoInit with token := some "" } =
      ([Event.call .get_user_login, Event.call (.request_access "" ""),
        Event.call (.authorize "" "")],
       .ok { demoInit with current_username := some "alice", token := some "tok" }) := by
  constructor
  · decide
  · rfl

/-- Claim C9 (amended): when `authorize_user` reaches the token step
holding a NON-EMPTY token it always issues the regenerate call and
never the issue call; holding none — or holding the empty string, which
the truthiness test `if not self.token` treats as no token — it always
issues the issue call and never regenerate; in both cases the held
token is replaced by the response's token. -/
theorem c9_token_rotation (env : Env) (s : DemoState) (info : LoginInfo)
    (hl : env.login = [info]) (hm : env.entered_username = info.username)
    (hg : env.accessGranted = true) :
    ((s.token = none ∨ s.token = some "") →
      Demo.authorize_user env s =
        ([Event.call .get_user_login,
          Event.call (.request_access s.client_id s.client_secret),
          Event.call (.authorize s.client_id s.client_secret)],
         .ok { s with current_username := some env.entered_username,
                      token := some env.authorizeToken })) ∧
    (∀ t, s.token = some t → t ≠ "" →
      Demo.authorize_user env s =
        ([Event.call .get_user_login,
          Event.call (.request_access s.client_id s.client_secret),
          Event.call (.generate_new_token t s.client_id s.client_secret)],
         .ok { s with current_username := some env.entered_username,
                      token := some env.newToken })) := by
  constructor
  · rintro (h | h) <;> simp [Demo.authorize_user, hl, hm, hg, pyIndex_cons_zero, h]
  · intro t h hne
    simp [Demo.authorize_user, hl, hm, hg, pyIndex_cons_zero, h, hne]

theorem c9_witness :
    Demo.authorize_user envScenario { demoInit with token := some "old" } =
      ([Event.call .get_user_login, Event.call (.request_access "" ""),
        Event.call (.generate_new_token "old" "" "")],
       .ok { demoInit with current_username := some "alice", token := some "tok2" }) :=
  (c9_token_rotation envScenario { demoInit with token := some "old" }
      ⟨"alice", "2024-01-01"⟩ rfl rfl rfl).2 "old" rfl (by decide)
